import Mathlib

/-!
Verification of the auction marketplace (Django app `auctions`).

Shallow embedding of `src/auctions/models.py` and `src/auctions/views.py`.
Monetary amounts (DecimalField values and parsed bid inputs) are embedded
as exact rationals `Rat`; the Python `float(...)` parse is modelled as exact
rational parsing of plain decimal notation (optional sign, digits, optional
fractional part); exponent and special forms such as `inf`/`nan` are omitted,
no claim depends on them.  Database tables are lists; list order stands for
insertion order (the `timestamp` column of `Bid` is represented by position).
-/

/-- A row of the `User` table (`models.py`, class `User`).  The `watchlist`
many-to-many relation is kept separately in `DB.watchlist`. -/
structure UserRow where
  id : Nat
  username : String
  email : String
  password : String
  deriving Repr, DecidableEq

/-- A row of the `Item` table (`models.py`, class `Item`). -/
structure Item where
  id : Nat
  title : String
  description : Option String
  starting_bid : Rat
  isopen : Bool
  category : Option Nat
  owner : Nat
  image : String
  deriving Repr, DecidableEq

/-- A row of the `Bid` table (`models.py`, class `Bid`).  The creation
timestamp is represented by the position of the row in `DB.bids`. -/
structure BidRow where
  amount : Rat
  itemId : Nat
  bidder : Nat
  deriving Repr, DecidableEq

/-- A row of the `Comment` table (`models.py`, class `Comment`). -/
structure CommentRow where
  text : String
  itemId : Nat
  like : Nat
  by_ : Option Nat
  deriving Repr, DecidableEq

/-- The relational store: one list per table, plus the watchlist
many-to-many relation as a list of (user id, item id) pairs with unique
membership. -/
structure DB where
  users : List UserRow
  items : List Item
  bids : List BidRow
  comments : List CommentRow
  watchlist : List (Nat × Nat)
  deriving Repr, DecidableEq

/-- Value of a list of decimal digit characters. -/
def natOfDigits (cs : List Char) : Nat :=
  cs.foldl (fun a c => a * 10 + (c.toNat - 48)) 0

/-- Embedding of Python `float(s)` restricted to plain decimal notation:
optional leading sign, integer digits, optional `.` and fraction digits
(at least one digit overall), surrounding whitespace stripped.  Returns
`none` where `float` raises `ValueError`. -/
def pyFloat (s : String) : Option Rat :=
  let cs := ((s.toList.dropWhile Char.isWhitespace).reverse.dropWhile
      Char.isWhitespace).reverse
  let (neg, body) := match cs with
    | '-' :: r => (true, r)
    | '+' :: r => (false, r)
    | _ => (false, cs)
  let ip := body.takeWhile (fun c => c ≠ '.')
  let rest := body.dropWhile (fun c => c ≠ '.')
  let sgn : Int → Int := fun v => if neg then -v else v
  match rest with
  | [] =>
    if !ip.isEmpty && ip.all Char.isDigit then
      some (mkRat (sgn (natOfDigits ip)) 1)
    else none
  | _ :: frac =>
    if ip.all Char.isDigit && frac.all Char.isDigit
        && (!ip.isEmpty || !frac.isEmpty) then
      some (mkRat (sgn (natOfDigits ip * 10 ^ frac.length + natOfDigits frac))
                  (10 ^ frac.length))
    else none

/-- `item.bids.all()`: the bids of one item, in insertion order. -/
def itemBids (db : DB) (itemId : Nat) : List BidRow :=
  db.bids.filter (fun b => b.itemId == itemId)

/-- `bids.order_by('-amount').first()`: the first bid after sorting by
amount descending — a bid of maximal amount, earliest inserted among
equals (stable descending order) — or `none` on an empty set. -/
def maxBidFirst : List BidRow → Option BidRow
  | [] => none
  | b :: bs =>
    match maxBidFirst bs with
    | none => some b
    | some m => if m.amount > b.amount then some m else some b

/-- `views.py` line 43:
`price = bids.order_by('-amount').first().amount if bids.exists() else item.starting_bid`. -/
def currentPrice (db : DB) (it : Item) : Rat :=
  match maxBidFirst (itemBids db it.id) with
  | some b => b.amount
  | none => it.starting_bid

/-- `Item.objects.get(pk=item_id)` as a lookup in the items table. -/
def findItem (db : DB) (itemId : Nat) : Option Item :=
  db.items.find? (fun j => j.id == itemId)

/-- `item.save()`: write back one (changed) item row by id. -/
def updateItem (db : DB) (it : Item) : DB :=
  { db with items := db.items.map (fun j => if j.id == it.id then it else j) }

/-- `user.watchlist.add(item)`: Django many-to-many add, an idempotent
insert (the through table has unique membership). -/
def wlAdd (wl : List (Nat × Nat)) (u itemId : Nat) : List (Nat × Nat) :=
  if (u, itemId) ∈ wl then wl else wl ++ [(u, itemId)]

/-- `user.watchlist.remove(item)`: Django many-to-many remove, a no-op
when the pair is absent. -/
def wlRemove (wl : List (Nat × Nat)) (u itemId : Nat) : List (Nat × Nat) :=
  wl.filter (fun p => p ≠ (u, itemId))

/-- `q` is representable as a fixed-point decimal with 2 places: in lowest
terms its denominator divides 100. -/
def isTwoPlace (q : Rat) : Bool :=
  100 % q.den == 0

/-- The watchlist action string of the POST body: the code tests
`== "add"` and treats every other value as remove. -/
inductive WatchAction
  | add
  | remove
  deriving Repr, DecidableEq

/-- The four mutually exclusive POST actions of the item view, selected by
which form field is present (`views.py` lines 49, 58, 71, 78); `other`
stands for a POST carrying none of the recognised fields.  The bid payload
is the raw form value (`none` models a pathological missing value, which
`float` turns into `TypeError`). -/
inductive PostBody
  | watch (a : WatchAction)
  | bid (input : Option String)
  | comment (text : String)
  | close
  | other
  deriving Repr, DecidableEq

/-- The user-visible messages set by the item view. -/
inductive Message
  | addedToWatchlist
  | removedFromWatchlist
  | bidSuccessful
  | bidTooLow
  | invalidBidAmount
  | commentAdded
  | auctionClosed (newOwner : Nat)
  deriving Repr, DecidableEq

/-- The exact message strings of `views.py` for each `Message`. -/
def Message.render : Message → String
  | .addedToWatchlist => "Added to watchlist"
  | .removedFromWatchlist => "Removed from watchlist"
  | .bidSuccessful => "Bid successful"
  | .bidTooLow => "Bid too low"
  | .invalidBidAmount => "Invalid bid amount."
  | .commentAdded => "Comment added."
  | .auctionClosed o => "Auction closed. Item is now owned by " ++ toString o

/-- Uncaught Python exceptions escaping the item view. -/
inductive Err
  | itemNotFound
  | anonWatchlist
  | noBids
  deriving Repr, DecidableEq

/-- The POST handling of the `item` view (`views.py` lines 41-92).
`user` is the request identity, `none` for `AnonymousUser`.  Notes kept
from the source:
* the watchlist branch reads `request.user.watchlist`, which for an
  anonymous user raises an uncaught `AttributeError` (`Err.anonWatchlist`);
* the bid branch wraps parse, comparison and `Bid.objects.create` in
  `try ... except (TypeError, ValueError)`; an anonymous bidder makes
  `Bid.objects.create` raise `ValueError`, which that handler catches,
  producing the "Invalid bid amount." message;
* the acceptance test of line 62,
  `(bids.exists() and bid_placed > bids.first().amount) or ((not bids.exists()) and bid_placed > item.starting_bid)`,
  is written as the equivalent match on `maxBidFirst`;
* the close branch (line 78) tests only `request.user == item.owner`,
  never `item.isopen`; with no bids, `.first().bidder` raises an uncaught
  `AttributeError` (`Err.noBids`) before `item.save()` runs, so the store
  is unchanged. -/
def itemPost (db : DB) (user : Option Nat) (itemId : Nat) (body : PostBody) :
    Except Err (DB × Option Message) :=
  match findItem db itemId with
  | none => .error .itemNotFound
  | some it =>
    match body with
    | .watch a =>
      match user with
      | none => .error .anonWatchlist
      | some u =>
        match a with
        | .add =>
          .ok ({ db with watchlist := wlAdd db.watchlist u itemId }, some .addedToWatchlist)
        | .remove =>
          .ok ({ db with watchlist := wlRemove db.watchlist u itemId }, some .removedFromWatchlist)
    | .bid input =>
      match input.bind pyFloat with
      | none => .ok (db, some .invalidBidAmount)
      | some q =>
        let accept :=
          match maxBidFirst (itemBids db itemId) with
          | some top => decide (q > top.amount)
          | none => decide (q > it.starting_bid)
        if accept then
          match user with
          | some u =>
            .ok ({ db with bids := db.bids ++ [⟨q, itemId, u⟩] }, some .bidSuccessful)
          | none => .ok (db, some .invalidBidAmount)
        else
          .ok (db, some .bidTooLow)
    | .comment text =>
      match user with
      | some u =>
        if text.isEmpty then .ok (db, none)
        else
          .ok ({ db with comments := db.comments ++ [⟨text, itemId, 0, some u⟩] }, some .commentAdded)
      | none => .ok (db, none)
    | .close =>
      if user == some it.owner then
        match maxBidFirst (itemBids db itemId) with
        | none => .error .noBids
        | some top =>
          .ok (updateItem db { it with isopen := false, owner := top.bidder },
               some (.auctionClosed top.bidder))
      else
        .ok (db, none)
    | .other => .ok (db, none)

/-- Outcome of the `register` view. -/
inductive RegisterResult
  | mismatch
  | duplicate
  | success
  deriving Repr, DecidableEq

/-- The POST handling of the `register` view (`views.py` lines 232-254):
a mismatched confirmation is rejected before any row is touched; a taken
username makes `create_user` raise `IntegrityError` (unique constraint),
caught without a row being kept; otherwise the new user row is inserted. -/
def register (db : DB) (username email password confirmation : String) :
    DB × RegisterResult :=
  if password ≠ confirmation then
    (db, .mismatch)
  else if db.users.any (fun u => u.username == username) then
    (db, .duplicate)
  else
    ({ db with users := db.users ++ [⟨db.users.length, username, email, password⟩] }, .success)

instance {e a : Type} [DecidableEq e] [DecidableEq a] :
    DecidableEq (Except e a) := fun x y =>
  match x, y with
  | .ok v, .ok w =>
    if h : v = w then .isTrue (by rw [h])
    else .isFalse (fun hc => by cases hc; exact h rfl)
  | .error v, .error w =>
    if h : v = w then .isTrue (by rw [h])
    else .isFalse (fun hc => by cases hc; exact h rfl)
  | .ok _, .error _ => .isFalse (fun hc => by cases hc)
  | .error _, .ok _ => .isFalse (fun hc => by cases hc)

/-! ## Sample stores for witnesses and counterexamples -/

def itemW1 : Item :=
  { id := 1, title := "lamp", description := none, starting_bid := 10,
    isopen := true, category := none, owner := 1, image := "" }

def dbW1 : DB :=
  { users := [], items := [itemW1], bids := [⟨15, 1, 2⟩, ⟨20, 1, 3⟩],
    comments := [], watchlist := [] }

def itemW2 : Item :=
  { id := 2, title := "desk", description := none, starting_bid := 10,
    isopen := true, category := none, owner := 1, image := "" }

def dbW2 : DB :=
  { users := [], items := [itemW2], bids := [], comments := [], watchlist := [] }

def itemC3 : Item :=
  { id := 3, title := "vase", description := none, starting_bid := 10,
    isopen := false, category := none, owner := 1, image := "" }

def dbC3 : DB :=
  { users := [], items := [itemC3], bids := [⟨20, 3, 2⟩],
    comments := [], watchlist := [] }

def itemW4 : Item :=
  { id := 4, title := "clock", description := none, starting_bid := 10,
    isopen := true, category := none, owner := 1, image := "" }

def dbW4 : DB :=
  { users := [], items := [itemW4], bids := [], comments := [], watchlist := [] }

def itemW5 : Item :=
  { id := 5, title := "chair", description := none, starting_bid := 10,
    isopen := true, category := none, owner := 1, image := "" }

def dbW5 : DB :=
  { users := [], items := [itemW5], bids := [⟨12, 5, 2⟩],
    comments := [], watchlist := [] }

def itemW6 : Item :=
  { id := 6, title := "book", description := none, starting_bid := 10,
    isopen := true, category := none, owner := 1, image := "" }

def dbW6 : DB :=
  { users := [], items := [itemW6], bids := [], comments := [], watchlist := [] }

def itemW7 : Item :=
  { id := 7, title := "mug", description := none, starting_bid := 10,
    isopen := true, category := none, owner := 1, image := "" }

def dbW7 : DB :=
  { users := [], items := [itemW7], bids := [], comments := [], watchlist := [] }

def dbW8 : DB :=
  { users := [⟨0, "bob", "bob@x", "x"⟩], items := [], bids := [],
    comments := [], watchlist := [] }

def itemC9 : Item :=
  { id := 9, title := "coin", description := none, starting_bid := 10,
    isopen := true, category := none, owner := 1, image := "" }

def dbC9 : DB :=
  { users := [], items := [itemC9], bids := [], comments := [], watchlist := [] }

def itemC10 : Item :=
  { id := 10, title := "pen", description := none, starting_bid := 10,
    isopen := true, category := none, owner := 1, image := "" }

def dbC10 : DB :=
  { users := [], items := [itemC10], bids := [], comments := [], watchlist := [] }

/-! ## Helper lemmas -/

theorem findItem_id (db : DB) (itemId : Nat) (it : Item)
    (h : findItem db itemId = some it) : it.id = itemId := by
  have := List.find?_some h
  simpa using this

theorem maxBidFirst_cons (b : BidRow) (bs : List BidRow) :
    maxBidFirst (b :: bs) =
      match maxBidFirst bs with
      | none => some b
      | some m => if m.amount > b.amount then some m else some b := rfl

theorem maxBidFirst_eq_none {l : List BidRow} :
    maxBidFirst l = none ↔ l = [] := by
  cases l with
  | nil => simp [maxBidFirst]
  | cons b bs =>
    rw [maxBidFirst_cons]
    constructor
    · intro h
      exfalso
      split at h
      · exact Option.noConfusion h
      · split at h <;> exact Option.noConfusion h
    · intro h
      exact absurd h (List.cons_ne_nil b bs)

theorem maxBidFirst_mem {l : List BidRow} {m : BidRow}
    (h : maxBidFirst l = some m) : m ∈ l := by
  induction l with
  | nil => simp [maxBidFirst] at h
  | cons b bs ih =>
    rw [maxBidFirst_cons] at h
    split at h
    · cases h
      exact List.mem_cons_self _ _
    · rename_i m2 hb
      split at h
      · cases h
        exact List.mem_cons_of_mem _ (ih hb)
      · cases h
        exact List.mem_cons_self _ _

theorem maxBidFirst_le {l : List BidRow} :
    ∀ {m : BidRow}, maxBidFirst l = some m → ∀ b ∈ l, b.amount ≤ m.amount := by
  induction l with
  | nil =>
    intro m h
    simp [maxBidFirst] at h
  | cons b bs ih =>
    intro m h
    rw [maxBidFirst_cons] at h
    intro c hc
    rcases List.mem_cons.mp hc with rfl | h1
    · split at h
      · cases h
        exact le_refl _
      · rename_i m2 hb
        split at h
        · rename_i hgt
          cases h
          exact le_of_lt hgt
        · cases h
          exact le_refl _
    · split at h
      · rename_i hb
        rw [maxBidFirst_eq_none] at hb
        subst hb
        simp at h1
      · rename_i m2 hb
        split at h
        · cases h
          exact ih hb c h1
        · rename_i hgt
          cases h
          exact le_trans (ih hb c h1) (not_lt.mp hgt)

theorem wlAdd_idem (wl : List (Nat × Nat)) (u i : Nat) :
    wlAdd (wlAdd wl u i) u i = wlAdd wl u i := by
  unfold wlAdd
  by_cases h : (u, i) ∈ wl
  · simp [h]
  · simp [h]

theorem wlRemove_of_not_mem (wl : List (Nat × Nat)) (u i : Nat)
    (h : (u, i) ∉ wl) : wlRemove wl u i = wl := by
  unfold wlRemove
  apply List.filter_eq_self.mpr
  intro p hp
  simp only [ne_eq, decide_not, Bool.not_eq_true', decide_eq_false_iff_not]
  intro hcontra
  exact h (hcontra ▸ hp)

theorem itemPost_watch_eval (db : DB) (user : Option Nat) (itemId : Nat)
    (it : Item) (a : WatchAction) (hit : findItem db itemId = some it) :
    itemPost db user itemId (.watch a) =
      match user with
      | none => .error .anonWatchlist
      | some u =>
        match a with
        | .add =>
          .ok ({ db with watchlist := wlAdd db.watchlist u itemId },
               some .addedToWatchlist)
        | .remove =>
          .ok ({ db with watchlist := wlRemove db.watchlist u itemId },
               some .removedFromWatchlist) := by
  simp only [itemPost, hit]

theorem itemPost_bid_invalid (db : DB) (user : Option Nat) (itemId : Nat)
    (it : Item) (input : Option String) (hit : findItem db itemId = some it)
    (hp : input.bind pyFloat = none) :
    itemPost db user itemId (.bid input) = .ok (db, some .invalidBidAmount) := by
  simp only [itemPost, hit, hp]

theorem itemPost_bid_eval (db : DB) (user : Option Nat) (itemId : Nat)
    (it : Item) (s : String) (q : Rat)
    (hit : findItem db itemId = some it) (hp : pyFloat s = some q) :
    itemPost db user itemId (.bid (some s)) =
      if q > currentPrice db it then
        match user with
        | some u =>
          .ok ({ db with bids := db.bids ++ [⟨q, itemId, u⟩] }, some .bidSuccessful)
        | none => .ok (db, some .invalidBidAmount)
      else .ok (db, some .bidTooLow) := by
  have hid : it.id = itemId := findItem_id db itemId it hit
  subst hid
  have key : (match maxBidFirst (itemBids db it.id) with
      | some top => decide (q > top.amount)
      | none => decide (q > it.starting_bid)) = decide (q > currentPrice db it) := by
    unfold currentPrice
    cases maxBidFirst (itemBids db it.id) <;> rfl
  simp only [itemPost, hit, Option.bind, hp, key]
  by_cases hq : q > currentPrice db it <;> simp [hq]

theorem itemPost_close_eval (db : DB) (user : Option Nat) (itemId : Nat)
    (it : Item) (hit : findItem db itemId = some it) :
    itemPost db user itemId .close =
      if user = some it.owner then
        match maxBidFirst (itemBids db itemId) with
        | none => .error .noBids
        | some top =>
          .ok (updateItem db { it with isopen := false, owner := top.bidder },
               some (.auctionClosed top.bidder))
      else .ok (db, none) := by
  simp only [itemPost, hit]
  by_cases hu : user = some it.owner
  · simp [hu]
  · simp [hu]

theorem itemPost_comment_eval (db : DB) (user : Option Nat) (itemId : Nat)
    (it : Item) (text : String) (hit : findItem db itemId = some it) :
    itemPost db user itemId (.comment text) =
      match user with
      | some u =>
        if text.isEmpty then .ok (db, none)
        else
          .ok ({ db with comments := db.comments ++ [⟨text, itemId, 0, some u⟩] },
               some .commentAdded)
      | none => .ok (db, none) := by
  simp only [itemPost, hit]

/-! ## Claims -/

/-- C1: for every item, `current_price` equals the starting price when the
item has no bids, and equals the maximum amount over all of that item's
bids when at least one bid exists (`views.py` line 43). -/
theorem current_price_spec (db : DB) (it : Item) :
    (itemBids db it.id = [] → currentPrice db it = it.starting_bid)
    ∧ (itemBids db it.id ≠ [] →
        (∃ b ∈ itemBids db it.id, currentPrice db it = b.amount)
        ∧ ∀ b ∈ itemBids db it.id, b.amount ≤ currentPrice db it) := by
  constructor
  · intro h
    unfold currentPrice
    rw [maxBidFirst_eq_none.mpr h]
  · intro h
    cases hmb : maxBidFirst (itemBids db it.id) with
    | none => exact absurd (maxBidFirst_eq_none.mp hmb) h
    | some m =>
      constructor
      · exact ⟨m, maxBidFirst_mem hmb, by unfold currentPrice; rw [hmb]⟩
      · intro b hb
        have hle := maxBidFirst_le hmb b hb
        unfold currentPrice
        rw [hmb]
        exact hle

/-- C1 witness: a store with bids 15 and 20 on item 1. -/
theorem current_price_spec_witness :
    (∃ b ∈ itemBids dbW1 itemW1.id, currentPrice dbW1 itemW1 = b.amount)
    ∧ ∀ b ∈ itemBids dbW1 itemW1.id, b.amount ≤ currentPrice dbW1 itemW1 :=
  (current_price_spec dbW1 itemW1).2 (by decide)

/-- C2: for an authenticated bidder and a numeric amount, the bid action
accepts exactly when the amount strictly exceeds `current_price`; on
acceptance exactly one new bid row carrying the amount, the item and the
user is appended and the existing rows are untouched; on rejection the
bid-too-low message is produced and no bid is created
(`views.py` lines 58-68). -/
theorem validate_bid_spec (db : DB) (u itemId : Nat) (it : Item)
    (s : String) (q : Rat)
    (hit : findItem db itemId = some it) (hp : pyFloat s = some q) :
    (q > currentPrice db it →
      itemPost db (some u) itemId (.bid (some s)) =
        .ok ({ db with bids := db.bids ++ [⟨q, itemId, u⟩] },
             some .bidSuccessful))
    ∧ (¬ q > currentPrice db it →
      itemPost db (some u) itemId (.bid (some s)) = .ok (db, some .bidTooLow)) := by
  rw [itemPost_bid_eval db (some u) itemId it s q hit hp]
  constructor
  · intro h
    rw [if_pos h]
  · intro h
    rw [if_neg h]

/-- C2 witness: a bid of 10.01 on starting price 10 with no prior bids. -/
theorem validate_bid_spec_witness :
    itemPost dbW2 (some 3) 2 (.bid (some "10.01")) =
      .ok ({ dbW2 with bids := dbW2.bids ++ [⟨mkRat 1001 100, 2, 3⟩] },
           some .bidSuccessful) :=
  (validate_bid_spec dbW2 3 2 itemW2 "10.01" (mkRat 1001 100)
    (by decide) (by decide)).1 (by decide)

/-- C3 counterexample: item 3 is already closed (owner 1, a bid of 20 by
user 2 on record); the owner's close request is executed again rather
than rejected — the handler tests only ownership, never the open flag —
so a message is produced and the owner is reassigned. -/
theorem close_closed_item_cex :
    itemC3.isopen = false ∧ itemC3.owner = 1 ∧
    itemPost dbC3 (some 1) 3 .close =
      .ok ({ dbC3 with items := [{ itemC3 with owner := 2 }] },
           some (.auctionClosed 2)) ∧
    (findItem { dbC3 with items := [{ itemC3 with owner := 2 }] } 3).map
        Item.owner = some 2 := by
  decide

/-- C3 amended: a close request by the item's current owner flips the open
flag to closed and reassigns the owner to the holder of the highest bid,
but the handler never tests the open flag, so the transition runs on every
such request (open or already closed) whenever a bid exists; a repeat
close is not rejected, and the owner can change more than once when a
higher bid arrives after closing. -/
theorem close_by_owner_spec (db : DB) (u itemId : Nat) (it : Item)
    (top : BidRow) (hit : findItem db itemId = some it) (hu : it.owner = u)
    (hm : maxBidFirst (itemBids db itemId) = some top) :
    itemPost db (some u) itemId .close =
      .ok (updateItem db { it with isopen := false, owner := top.bidder },
           some (.auctionClosed top.bidder)) := by
  rw [itemPost_close_eval db (some u) itemId it hit, if_pos (by rw [hu]), hm]

/-- C3 witness: the amended transition applied to the closed item 3. -/
theorem close_by_owner_spec_witness :
    itemPost dbC3 (some 1) 3 .close =
      .ok (updateItem dbC3 { itemC3 with isopen := false, owner := 2 },
           some (.auctionClosed 2)) :=
  close_by_owner_spec dbC3 1 3 itemC3 ⟨20, 3, 2⟩ (by decide) (by decide)
    (by decide)

/-- C4: an owner's close request on an open item with zero bids reaches
the error branch — the highest-bid lookup yields nothing and the
attribute access on the empty result fails before `item.save()` — so no
closed item with a defined owner is produced and the store is unchanged
(`views.py` lines 78-81). -/
theorem close_no_bids_fails (db : DB) (u itemId : Nat) (it : Item)
    (hit : findItem db itemId = some it) (h_open : it.isopen = true)
    (hu : it.owner = u) (hb : itemBids db itemId = []) :
    itemPost db (some u) itemId .close = .error .noBids := by
  rw [itemPost_close_eval db (some u) itemId it hit, if_pos (by rw [hu]),
      maxBidFirst_eq_none.mpr hb]

/-- C4 witness: closing open item 4, which has no bids, fails. -/
theorem close_no_bids_fails_witness :
    itemPost dbW4 (some 1) 4 .close = .error .noBids :=
  close_no_bids_fails dbW4 1 4 itemW4 (by decide) (by decide) (by decide)
    (by decide)

/-- C5: a close request from any identity other than the item's current
owner (another user or the anonymous user) changes nothing — the whole
store, hence the open flag, owner, bids, comments and watchlist, is
returned untouched — and no message is produced (`views.py` line 78,
failed guard falls through silently). -/
theorem close_nonowner_frame (db : DB) (user : Option Nat) (itemId : Nat)
    (it : Item) (hit : findItem db itemId = some it)
    (hu : user ≠ some it.owner) :
    itemPost db user itemId .close = .ok (db, none) := by
  rw [itemPost_close_eval db user itemId it hit, if_neg hu]

/-- C5 witness: user 9 (not the owner, which is 1) closing item 5. -/
theorem close_nonowner_frame_witness :
    itemPost dbW5 (some 9) 5 .close = .ok (dbW5, none) :=
  close_nonowner_frame dbW5 (some 9) 5 itemW5 (by decide) (by decide)

/-- C6: a bid request whose form value is missing or fails numeric parsing
is rejected with the invalid-amount message, creates no bid row and leaves
the store unchanged (`views.py` lines 59-68, the `except` clause of the
bid branch). -/
theorem invalid_bid_amount_spec (db : DB) (user : Option Nat) (itemId : Nat)
    (it : Item) (input : Option String)
    (hit : findItem db itemId = some it)
    (hp : input.bind pyFloat = none) :
    itemPost db user itemId (.bid input) = .ok (db, some .invalidBidAmount) :=
  itemPost_bid_invalid db user itemId it input hit hp

/-- C6 witness: the non-numeric value "abc" and the missing value are both
rejected on item 6 with no change to the store. -/
theorem invalid_bid_amount_spec_witness :
    itemPost dbW6 (some 2) 6 (.bid (some "abc")) =
      .ok (dbW6, some .invalidBidAmount) ∧
    itemPost dbW6 (some 2) 6 (.bid none) = .ok (dbW6, some .invalidBidAmount) :=
  ⟨invalid_bid_amount_spec dbW6 (some 2) 6 itemW6 (some "abc") (by decide)
     (by decide),
   invalid_bid_amount_spec dbW6 (some 2) 6 itemW6 none (by decide) (by decide)⟩

/-- C7: watchlist membership has set semantics — adding twice yields the
same state as adding once, removing an absent pair is a no-op, and both
operations complete with their success message regardless of prior
membership (`views.py` lines 49-55, many-to-many relation). -/
theorem watchlist_set_semantics (db : DB) (u itemId : Nat) (it : Item)
    (hit : findItem db itemId = some it) :
    (itemPost db (some u) itemId (.watch .add) =
        .ok ({ db with watchlist := wlAdd db.watchlist u itemId },
             some .addedToWatchlist)
      ∧ itemPost { db with watchlist := wlAdd db.watchlist u itemId }
          (some u) itemId (.watch .add) =
        .ok ({ db with watchlist := wlAdd db.watchlist u itemId },
             some .addedToWatchlist))
    ∧ itemPost db (some u) itemId (.watch .remove) =
        .ok ({ db with watchlist := wlRemove db.watchlist u itemId },
             some .removedFromWatchlist)
    ∧ ((u, itemId) ∉ db.watchlist →
        itemPost db (some u) itemId (.watch .remove) =
          .ok (db, some .removedFromWatchlist)) := by
  have hit2 : findItem { db with watchlist := wlAdd db.watchlist u itemId }
      itemId = some it := hit
  refine ⟨⟨?_, ?_⟩, ?_, ?_⟩
  · rw [itemPost_watch_eval db (some u) itemId it .add hit]
  · rw [itemPost_watch_eval _ (some u) itemId it .add hit2]
    show Except.ok
        ({ db with watchlist := wlAdd (wlAdd db.watchlist u itemId) u itemId },
         some Message.addedToWatchlist) = _
    rw [wlAdd_idem]
  · rw [itemPost_watch_eval db (some u) itemId it .remove hit]
  · intro h
    rw [itemPost_watch_eval db (some u) itemId it .remove hit]
    show Except.ok
        ({ db with watchlist := wlRemove db.watchlist u itemId },
         some Message.removedFromWatchlist) =
      Except.ok (db, some Message.removedFromWatchlist)
    rw [wlRemove_of_not_mem db.watchlist u itemId h]

/-- C7 witness: user 1 and item 7; (1, 7) is not watched, so the remove
is a no-op that still reports success. -/
theorem watchlist_set_semantics_witness :
    (1, 7) ∉ dbW7.watchlist ∧
    itemPost dbW7 (some 1) 7 (.watch .remove) =
      .ok (dbW7, some .removedFromWatchlist) :=
  ⟨by decide,
   (watchlist_set_semantics dbW7 1 7 itemW7 (by decide)).2.2 (by decide)⟩

/-- C8: registration rejects a mismatched password/confirmation pair and a
duplicate username, and in both failure cases the user table is unchanged
(`views.py` lines 232-254). -/
theorem register_rejections (db : DB)
    (username email password confirmation : String) :
    (password ≠ confirmation →
      register db username email password confirmation = (db, .mismatch))
    ∧ (password = confirmation →
      db.users.any (fun u => u.username == username) = true →
      register db username email password confirmation = (db, .duplicate)) := by
  constructor
  · intro h
    unfold register
    rw [if_pos h]
  · intro h hdup
    unfold register
    rw [if_neg (by simp [h]), if_pos hdup]

/-- C8 witness: "bob" exists in the table; a mismatched confirmation and a
duplicate username are both rejected with the table unchanged. -/
theorem register_rejections_witness :
    register dbW8 "bob" "b@x" "x" "y" = (dbW8, .mismatch) ∧
    register dbW8 "bob" "b2@x" "pw" "pw" = (dbW8, .duplicate) :=
  ⟨(register_rejections dbW8 "bob" "b@x" "x" "y").1 (by decide),
   (register_rejections dbW8 "bob" "b2@x" "pw" "pw").2 (by decide) (by decide)⟩

/-- C9 counterexample: the bid "10.001" against starting price 10 on item
9 is accepted and stored verbatim as 10001/1000, which is not
representable with two decimal places — the handler parses with `float`
and neither validates nor quantizes to the two-place schema type. -/
theorem bid_two_place_cex :
    itemPost dbC9 (some 2) 9 (.bid (some "10.001")) =
      .ok ({ dbC9 with bids := [⟨mkRat 10001 1000, 9, 2⟩] },
           some .bidSuccessful)
    ∧ isTwoPlace (mkRat 10001 1000) = false := by
  decide

/-- C9 amended: the bid action compares and stores the parsed numeric
value as-is: an accepted amount is appended verbatim, with no quantization
to two decimal places, even when it is not a two-place fixed-point value. -/
theorem bid_stores_unquantized (db : DB) (u itemId : Nat) (it : Item)
    (s : String) (q : Rat)
    (hit : findItem db itemId = some it) (hp : pyFloat s = some q)
    (hq2 : isTwoPlace q = false) (hacc : q > currentPrice db it) :
    itemPost db (some u) itemId (.bid (some s)) =
      .ok ({ db with bids := db.bids ++ [⟨q, itemId, u⟩] },
           some .bidSuccessful)
    ∧ isTwoPlace q = false := by
  refine ⟨?_, hq2⟩
  rw [itemPost_bid_eval db (some u) itemId it s q hit hp, if_pos hacc]

/-- C9 witness: the three-place amount "10.005" is accepted and stored
verbatim. -/
theorem bid_stores_unquantized_witness :
    itemPost dbC9 (some 3) 9 (.bid (some "10.005")) =
      .ok ({ dbC9 with bids := dbC9.bids ++ [⟨mkRat 2001 200, 9, 3⟩] },
           some .bidSuccessful)
    ∧ isTwoPlace (mkRat 2001 200) = false :=
  bid_stores_unquantized dbC9 3 9 itemC9 "10.005" (mkRat 2001 200)
    (by decide) (by decide) (by decide) (by decide)

/-- C10 counterexample: an anonymous bid of 15 against price 10 on item 10
takes the accepted-amount path, yet the request completes normally with
the user-visible "Invalid bid amount." message — the `ValueError` raised
when the bid row is created with the anonymous identity is caught by the
bid branch's own `except` clause — not with an uncaught error. -/
theorem anon_bid_message_cex :
    currentPrice dbC10 itemC10 = 10 ∧ pyFloat "15" = some 15 ∧
    itemPost dbC10 none 10 (.bid (some "15")) =
      .ok (dbC10, some .invalidBidAmount) := by
  decide

/-- C10 amended: no authentication check guards the watchlist or bid
branches (only the comment branch tests `is_authenticated`): an anonymous
watchlist action proceeds and fails with an uncaught attribute error; an
anonymous bid with an accepted amount proceeds into bid creation, whose
failure is caught by the branch's exception handler, so the request
completes with the invalid-amount message and no bid row and no other
change; an anonymous comment is silently ignored. -/
theorem anon_no_auth_gate (db : DB) (itemId : Nat) (it : Item)
    (a : WatchAction) (s : String) (q : Rat) (text : String)
    (hit : findItem db itemId = some it) :
    itemPost db none itemId (.watch a) = .error .anonWatchlist
    ∧ (pyFloat s = some q → q > currentPrice db it →
        itemPost db none itemId (.bid (some s)) =
          .ok (db, some .invalidBidAmount))
    ∧ itemPost db none itemId (.comment text) = .ok (db, none) := by
  refine ⟨?_, ?_, ?_⟩
  · rw [itemPost_watch_eval db none itemId it a hit]
  · intro hp hacc
    rw [itemPost_bid_eval db none itemId it s q hit hp, if_pos hacc]
  · rw [itemPost_comment_eval db none itemId it text hit]

/-- C10 witness: on item 10, the anonymous watchlist add errors and the
anonymous accepted-amount bid of 12 surfaces as a message. -/
theorem anon_no_auth_gate_witness :
    itemPost dbC10 none 10 (.watch .add) = .error .anonWatchlist
    ∧ itemPost dbC10 none 10 (.bid (some "12")) =
      .ok (dbC10, some .invalidBidAmount) :=
  ⟨(anon_no_auth_gate dbC10 10 itemC10 .add "12" 12 "hi" (by decide)).1,
   (anon_no_auth_gate dbC10 10 itemC10 .add "12" 12 "hi"
     (by decide)).2.1 (by decide) (by decide)⟩
